import Mathlib

/-!
Shallow embedding of `ReplayCADmiumJSON.py`, a Fusion 360 script that replays
a CADmium / Fusion360-ds JSON description into geometry: it loads a JSON file,
and for each entry of `parts` draws the circles found under `sketch` onto a
new sketch on the XY construction plane, extrudes a selected profile, and
best-effort renames and Z-translates the resulting body.

Python values parsed from JSON are modelled by `JsonV`; Python operations that
can raise are modelled in `Except PyExc`; the observable effects of the script
(sketches, circles, extrudes, renames, moves, message boxes) are modelled as a
trace of `Event`s, produced by a state-threading monad `PM`.  Opaque host
capabilities (the profile solver, the extrude feature's body list, host-side
failures of renaming/moving) are modelled by an oracle `HostPart`, one per
part iteration.

Numbers are modelled as rationals.  Deliberate simplifications, none of which
the claims below depend on: `float()` applied to a numeric string, tuple
unpacking of a string, and Python's string/list repetition `x * int` are not
modelled (the model raises where Python would produce a string/list that makes
a later arithmetic step raise instead).
-/

namespace ReplayCADmium

/-- Python exception classes that the script can raise, abstracted. -/
inductive PyExc where
  | typeError
  | valueError
  | keyError
  | indexError
  | attributeError
  | runtimeError
  | ioError
  | jsonError
  | hostError
deriving DecidableEq, Repr

/-- A JSON value as `json.load` produces it (numbers as rationals). -/
inductive JsonV where
  | null
  | bool (b : Bool)
  | num (q : ℚ)
  | str (s : String)
  | arr (xs : List JsonV)
  | obj (kvs : List (String × JsonV))

/-- The members of `adsk.fusion.FeatureOperations` the script mentions. -/
inductive FeatureOperations where
  | NewBodyFeatureOperation
  | JoinFeatureOperation
  | CutFeatureOperation
  | IntersectFeatureOperation
deriving DecidableEq, Repr

/-- One observable effect of the script. -/
inductive Event where
  | sketchAdded (sketchIdx : Nat) (plane : String)
  | circleAdded (sketchIdx : Nat) (cx cy cz r : ℚ)
  | extrudeAdded (sketchIdx : Nat) (profileIdx : Nat) (op : FeatureOperations) (distance : ℚ)
  | bodyRenamed (name : String)
  | moveAdded (bodyName : String) (dx dy dz : ℚ)
  | message (text : String)
deriving DecidableEq, Repr

/-- `UNIT_MULT = 100` (line 10 of the source). -/
def UNIT_MULT : ℚ := 100

/-- First-match association-list lookup: the Python dict produced by
`json.load` (keys are unique). -/
def pyDictLookup : List (String × JsonV) → String → Option JsonV
  | [], _ => none
  | (k, v) :: rest, key => if k = key then some v else pyDictLookup rest key

/-- `d.get(key, default)`; raises `AttributeError` when the receiver is not a
dict. -/
def pyGet (v : JsonV) (key : String) (dflt : JsonV) : Except PyExc JsonV :=
  match v with
  | .obj kvs => .ok ((pyDictLookup kvs key).getD dflt)
  | _ => .error .attributeError

/-- Python truthiness of a JSON value. -/
def pyTruthy : JsonV → Bool
  | .null => false
  | .bool b => b
  | .num q => decide (q ≠ 0)
  | .str s => decide (s ≠ "")
  | .arr xs => !xs.isEmpty
  | .obj kvs => !kvs.isEmpty

/-- `d.items()`; raises when the receiver is not a dict. -/
def pyItems : JsonV → Except PyExc (List (String × JsonV))
  | .obj kvs => .ok kvs
  | _ => .error .attributeError

/-- `d.values()`; raises when the receiver is not a dict. -/
def pyValues : JsonV → Except PyExc (List JsonV)
  | .obj kvs => .ok (kvs.map Prod.snd)
  | _ => .error .attributeError

/-- `a, b = v`: unpacking into two targets (strings of length 2, which Python
would also unpack, are not modelled). -/
def unpack2 : JsonV → Except PyExc (JsonV × JsonV)
  | .arr [a, b] => .ok (a, b)
  | .arr _ => .error .valueError
  | _ => .error .typeError

/-- `a, b, c = v`: unpacking into three targets. -/
def unpack3 : JsonV → Except PyExc (JsonV × JsonV × JsonV)
  | .arr [a, b, c] => .ok (a, b, c)
  | .arr _ => .error .valueError
  | _ => .error .typeError

/-- The numeric value of a JSON value used in float arithmetic
(`True`/`False` count as `1`/`0`; everything non-numeric raises). -/
def asNum : JsonV → Except PyExc ℚ
  | .num q => .ok q
  | .bool b => .ok (if b then 1 else 0)
  | _ => .error .typeError

/-- `float(v)` (numeric strings are not modelled and raise here). -/
def pyFloat : JsonV → Except PyExc ℚ
  | .num q => .ok q
  | .bool b => .ok (if b then 1 else 0)
  | _ => .error .valueError

/-- `len(v)`; raises `TypeError` on values with no length. -/
def pyLen : JsonV → Except PyExc Nat
  | .arr xs => .ok xs.length
  | .str s => .ok s.length
  | .obj kvs => .ok kvs.length
  | _ => .error .typeError

/-- `v[0]` for the JSON values the script can index with `0`. -/
def pyIndex0 : JsonV → Except PyExc JsonV
  | .arr (a :: _) => .ok a
  | .arr [] => .error .indexError
  | .str s => if s.length = 0 then .error .indexError else .ok (.str (s.take 1))
  | .obj _ => .error .keyError
  | _ => .error .typeError

/-- Python float `%` for a positive modulus: `a % b = a - b * floor (a / b)`. -/
def pymod (a b : ℚ) : ℚ := a - b * ⌊a / b⌋

/-- `True` iff the value is hashable, i.e. usable as a `dict` key
(JSON lists and objects are unhashable in Python). -/
def hashableJson : JsonV → Bool
  | .arr _ => false
  | .obj _ => false
  | _ => true

/-- `_map_operation` (lines 18-26): look up the operation name in the literal
dict `m`, defaulting to `NewBodyFeatureOperation`; `m.get` hashes its key
first, so an unhashable key raises `TypeError`. -/
def _map_operation (op : JsonV) : Except PyExc FeatureOperations :=
  match op with
  | .arr _ => .error .typeError
  | .obj _ => .error .typeError
  | .str s =>
      if s = "NewBodyFeatureOperation" then .ok .NewBodyFeatureOperation
      else if s = "JoinFeatureOperation" then .ok .JoinFeatureOperation
      else if s = "CutFeatureOperation" then .ok .CutFeatureOperation
      else if s = "IntersectFeatureOperation" then .ok .IntersectFeatureOperation
      else .ok .NewBodyFeatureOperation
  | _ => .ok .NewBodyFeatureOperation

/-- A profile of a sketch as the script observes it: the loop count of its
`profileLoops` collection, or `none` when `profileLoops` is falsy (or raises,
which the `try`/`except` in the source treats the same way). -/
abbrev Profile := Option Nat

/-- The loop of `_pick_profile_for_circles` (lines 33-39): the first profile,
with its index, whose `profileLoops` collection is truthy and has exactly two
loops. -/
def pickProfileAux : List Profile → Nat → Option Nat
  | [], _ => none
  | p :: rest, i =>
      (match p with
       | some n => if n = 2 then some i else pickProfileAux rest (i + 1)
       | none => pickProfileAux rest (i + 1))

/-- `_pick_profile_for_circles` (lines 28-40), returning the index of the
chosen profile: `none` when there are no profiles, else the first profile with
exactly two loops (an annulus) if any, else profile `0`. -/
def _pick_profile_for_circles (profs : List Profile) : Option Nat :=
  if profs.length = 0 then none
  else
    match pickProfileAux profs 0 with
    | some i => some i
    | none => some 0

/-- A state-threading interpretation of the script's effects: a computation
appends `Event`s to the trace and either returns a value or raises. -/
def PM (α : Type) : Type := List Event → List Event × Except PyExc α

/-- Return a value, touching nothing. -/
def PM.pure (a : α) : PM α := fun tr => (tr, .ok a)

/-- Sequencing: on an exception the partial trace is kept (message boxes shown
and geometry created before the exception are not rolled back). -/
def PM.bind (m : PM α) (f : α → PM β) : PM β := fun tr =>
  match m tr with
  | (tr', .ok a) => f a tr'
  | (tr', .error e) => (tr', .error e)

/-- Run a pure fallible step (no observable effect). -/
def liftE (x : Except PyExc α) : PM α := fun tr => (tr, x)

/-- Record one observable effect. -/
def emit (e : Event) : PM Unit := fun tr => (tr ++ [e], .ok ())

/-- A `try`/`except` that handles every exception class. -/
def catchAll (m : PM α) (h : PyExc → PM α) : PM α := fun tr =>
  match m tr with
  | (tr', .ok a) => (tr', .ok a)
  | (tr', .error e) => h e tr'

/-- `_add_circle` (lines 42-44): one circle by center and radius, at
`Point3D.create(cx_cm, cy_cm, 0)` — the z coordinate is the literal `0`. -/
def _add_circle (sketchIdx : Nat) (cx_cm cy_cm r_cm : ℚ) : PM Unit :=
  emit (.circleAdded sketchIdx cx_cm cy_cm 0 r_cm)

/-- `_move_body` (lines 54-61): a move feature translating the one body in the
collection by `(dx_cm, dy_cm, dz_cm)`. -/
def _move_body (bodyName : String) (dx_cm dy_cm dz_cm : ℚ) : PM Unit :=
  emit (.moveAdded bodyName dx_cm dy_cm dz_cm)

/-- What the opaque host (CAD kernel) does for one part iteration: the
profiles the sketch solver finds on that part's sketch, whether the created
extrude feature and its `bodies` collection are truthy and how many bodies it
holds, and whether renaming the first body or adding the move feature raises a
host exception. -/
structure HostPart where
  profiles : List Profile
  extrudeTruthy : Bool
  bodiesTruthy : Bool
  bodiesCount : Nat
  renameRaises : Bool
  moveRaises : Bool

/-- The inputs of one invocation of `run`: whether the active product casts to
a `Design`, the outcome of the file dialog (`none` = cancelled) together with
the result of reading and parsing the chosen file, the host oracle for each
part iteration, and whether `ui` is truthy in the top-level handler. -/
structure Env where
  designOk : Bool
  dialog : Option (Except PyExc JsonV)
  host : Nat → HostPart
  uiTruthy : Bool

/-- Lines 88-95: read `coordinate_system`, `Euler Angles` and
`Translation Vector` with their defaults, unpack the translation vector and
scale it to cm (which forces its components to be numeric); the raw
`tx, ty, tz` and the Euler value are what the rest of the part iteration
uses. -/
def prePhase (part : JsonV) : Except PyExc (ℚ × ℚ × ℚ × JsonV) :=
  match pyGet part "coordinate_system" (.obj []) with
  | .error e => .error e
  | .ok csys =>
  match pyGet csys "Euler Angles" (.arr [.num 0, .num 0, .num 0]) with
  | .error e => .error e
  | .ok euler =>
  match pyGet csys "Translation Vector" (.arr [.num 0, .num 0, .num 0]) with
  | .error e => .error e
  | .ok tvec =>
  match unpack3 tvec with
  | .error e => .error e
  | .ok (t1, t2, t3) =>
  match asNum t1 with
  | .error e => .error e
  | .ok tx =>
  match asNum t2 with
  | .error e => .error e
  | .ok ty =>
  match asNum t3 with
  | .error e => .error e
  | .ok tz => .ok (tx, ty, tz, euler)

/-- Lines 102-105: read the `sketch` dict and the extrusion's `sketch_scale`
(default `1.0`), and take the sketch dict's values to iterate over. -/
def sketchPhase (part : JsonV) : Except PyExc (List JsonV × ℚ) :=
  match pyGet part "sketch" (.obj []) with
  | .error e => .error e
  | .ok skDict =>
  match pyGet part "extrusion" (.obj []) with
  | .error e => .error e
  | .ok ext =>
  match pyGet ext "sketch_scale" (.num 1) with
  | .error e => .error e
  | .ok sv =>
  match pyFloat sv with
  | .error e => .error e
  | .ok s =>
  match pyValues skDict with
  | .error e => .error e
  | .ok faces => .ok (faces, s)

/-- Lines 113-121 for one curve value: `none` when the value is skipped (not a
dict, or missing `Center` or `Radius`), otherwise the circle's
`(cx_cm, cy_cm, r_cm)` computed as
`((tx + s*cx) * UNIT_MULT, (ty + s*cy) * UNIT_MULT, (s*r) * UNIT_MULT)`. -/
def curveCompute (tx ty s : ℚ) (c : JsonV) : Except PyExc (Option (ℚ × ℚ × ℚ)) :=
  match c with
  | .obj kvs =>
      match pyDictLookup kvs "Center", pyDictLookup kvs "Radius" with
      | some ctr, some rad =>
          (match unpack2 ctr with
           | .error e => .error e
           | .ok (cv1, cv2) =>
           match asNum cv1 with
           | .error e => .error e
           | .ok cx =>
           match asNum cv2 with
           | .error e => .error e
           | .ok cy =>
           match asNum rad with
           | .error e => .error e
           | .ok r =>
             .ok (some ((tx + s * cx) * UNIT_MULT, (ty + s * cy) * UNIT_MULT,
                        (s * r) * UNIT_MULT)))
      | _, _ => .ok none
  | _ => .ok none

/-- Lines 112-123: process one curve value, drawing its circle when it
qualifies; returns whether a circle was drawn. -/
def drawCurve (idx : Nat) (tx ty s : ℚ) (c : JsonV) : PM Bool :=
  PM.bind (liftE (curveCompute tx ty s c)) fun res =>
  match res with
  | none => PM.pure false
  | some (cx, cy, r) => PM.bind (_add_circle idx cx cy r) fun _ => PM.pure true

/-- The inner `for circ_val in loop_val[1].values()` loop. -/
def drawCurves (idx : Nat) (tx ty s : ℚ) : List JsonV → PM Bool
  | [] => PM.pure false
  | c :: cs =>
      PM.bind (drawCurve idx tx ty s c) fun b =>
      PM.bind (drawCurves idx tx ty s cs) fun b' =>
      PM.pure (b || b')

/-- The middle `for loop_val in face_val.items()` loop: `loop_val` is always a
`(key, value)` tuple, so only the `isinstance(loop_val[1], dict)` test can
skip. -/
def drawLoops (idx : Nat) (tx ty s : ℚ) : List (String × JsonV) → PM Bool
  | [] => PM.pure false
  | (_, lv) :: rest =>
      PM.bind
        (match lv with
         | .obj cvs => drawCurves idx tx ty s (cvs.map Prod.snd)
         | _ => PM.pure false) fun b =>
      PM.bind (drawLoops idx tx ty s rest) fun b' =>
      PM.pure (b || b')

/-- The outer `for face_val in sketch_dict.values()` loop (lines 105-123);
returns `drew_any`. -/
def drawFaces (idx : Nat) (tx ty s : ℚ) : List JsonV → PM Bool
  | [] => PM.pure false
  | f :: fs =>
      PM.bind
        (match f with
         | .obj kvs => drawLoops idx tx ty s kvs
         | _ => PM.pure false) fun b =>
      PM.bind (drawFaces idx tx ty s fs) fun b' =>
      PM.pure (b || b')

/-- Lines 139-142: `ex` is the first Euler angle when the Euler value has
length `3` (else `0.0`); flip the sign of `depth_pos` when
`abs((ex % 360.0) - 180.0) < 1e-6`. -/
def computeDistance (euler : JsonV) (depthPos : ℚ) : Except PyExc ℚ :=
  match pyLen euler with
  | .error e => .error e
  | .ok n =>
  match (if n = 3 then
           match pyIndex0 euler with
           | .error e => .error e
           | .ok v => asNum v
         else (.ok 0 : Except PyExc ℚ)) with
  | .error e => .error e
  | .ok ex =>
    .ok (if |pymod ex 360 - 180| < 1 / 1000000 then -depthPos else depthPos)

/-- Lines 135-142: read the extrusion dict again, take
`extrude_depth_towards_normal` (default `0.0`) scaled by `UNIT_MULT`, map the
operation name (default `'NewBodyFeatureOperation'`), and compute the signed
extrusion distance. -/
def extrudePhase (part : JsonV) (euler : JsonV) :
    Except PyExc (FeatureOperations × ℚ) :=
  match pyGet part "extrusion" (.obj []) with
  | .error e => .error e
  | .ok ext =>
  match pyGet ext "extrude_depth_towards_normal" (.num 0) with
  | .error e => .error e
  | .ok dv =>
  match pyFloat dv with
  | .error e => .error e
  | .ok d =>
  match pyGet ext "operation" (.str "NewBodyFeatureOperation") with
  | .error e => .error e
  | .ok opv =>
  match _map_operation opv with
  | .error e => .error e
  | .ok op =>
  match computeDistance euler (d * UNIT_MULT) with
  | .error e => .error e
  | .ok dist => .ok (op, dist)

/-- The body of the `try` at lines 151-157: when the extrude feature and its
`bodies` collection are truthy and nonempty, rename the first body to the part
name, then move it by `(0, 0, tz_cm)` when `abs(tz_cm) > 1e-9`; host failures
of renaming or moving raise. -/
def bestEffortBody (env : Env) (idx : Nat) (name : String) (tzCm : ℚ) : PM Unit :=
  if (env.host idx).extrudeTruthy && (env.host idx).bodiesTruthy
       && decide (0 < (env.host idx).bodiesCount) then
    PM.bind
      (if (env.host idx).renameRaises then liftE (.error .hostError)
       else emit (.bodyRenamed name)) fun _ =>
    if |tzCm| > 1 / 1000000000 then
      if (env.host idx).moveRaises then liftE (.error .hostError)
      else _move_body name 0 0 tzCm
    else PM.pure ()
  else PM.pure ()

/-- Lines 150-159: the naming/moving block wrapped in its bare `except: pass`. -/
def bestEffort (env : Env) (idx : Nat) (name : String) (tzCm : ℚ) : PM Unit :=
  catchAll (bestEffortBody env idx name tzCm) (fun _ => PM.pure ())

/-- The message of line 126. -/
def noCirclesMsg (name : String) : String :=
  "No circles drawn for " ++ name ++ "; check JSON."

/-- The message of line 131. -/
def noProfileMsg (name : String) : String :=
  "No valid profile for " ++ name ++ "."

/-- The message of line 82. -/
def noPartsMsg : String := "No \"parts\" found in JSON."

/-- An abstraction of `traceback.format_exc()` for the raised exception. -/
def formatExc : PyExc → String
  | .typeError => "TypeError"
  | .valueError => "ValueError"
  | .keyError => "KeyError"
  | .indexError => "IndexError"
  | .attributeError => "AttributeError"
  | .runtimeError => "RuntimeError"
  | .ioError => "OSError"
  | .jsonError => "JSONDecodeError"
  | .hostError => "RuntimeError"

/-- The message of line 165. -/
def failMsg (e : PyExc) : String := "Failed:\n" ++ formatExc e

/-- One iteration of the `for part_name, part in parts.items()` loop
(lines 87-159). -/
def processPart (env : Env) (idx : Nat) (name : String) (part : JsonV) : PM Unit :=
  PM.bind (liftE (prePhase part)) fun pre =>
  PM.bind (emit (.sketchAdded idx "xYConstructionPlane")) fun _ =>
  PM.bind (liftE (sketchPhase part)) fun sp =>
  PM.bind (drawFaces idx pre.1 pre.2.1 sp.2 sp.1) fun drew =>
  if drew = false then emit (.message (noCirclesMsg name))
  else
    match _pick_profile_for_circles (env.host idx).profiles with
    | none => emit (.message (noProfileMsg name))
    | some pIdx =>
        PM.bind (liftE (extrudePhase part pre.2.2.2)) fun od =>
        PM.bind (emit (.extrudeAdded idx pIdx od.1 od.2)) fun _ =>
        bestEffort env idx name (pre.2.2.1 * UNIT_MULT)

/-- The whole part loop, numbering iterations from `i` (the iteration number
identifies the part's sketch and its host oracle entry). -/
def processParts (env : Env) : Nat → List (String × JsonV) → PM Unit
  | _, [] => PM.pure ()
  | i, (name, part) :: rest =>
      PM.bind (processPart env i name part) fun _ =>
      processParts env (i + 1) rest

/-- The body of `run`'s `try` block (lines 66-161). -/
def runBody (env : Env) : PM Unit :=
  PM.bind (liftE (if env.designOk then .ok () else .error .runtimeError)) fun _ =>
  match env.dialog with
  | none => PM.pure ()
  | some parsed =>
      PM.bind (liftE parsed) fun data =>
      PM.bind (liftE (pyGet data "parts" (.obj []))) fun parts =>
      if pyTruthy parts = false then emit (.message noPartsMsg)
      else
        PM.bind (liftE (pyItems parts)) fun items =>
        PM.bind (processParts env 0 items) fun _ =>
        emit (.message "Replay complete.")

/-- `run` (lines 63-165): the body wrapped in the top-level catch-all, which
shows the formatted traceback when `ui` is truthy. -/
def runScript (env : Env) : List Event × Except PyExc Unit :=
  catchAll (runBody env)
    (fun e => if env.uiTruthy then emit (.message (failMsg e)) else PM.pure ()) []

/-! ### Basic facts about the trace monad -/

theorem PM.bind_ok {α β : Type} {m : PM α} {f : α → PM β} {tr tr' : List Event}
    {a : α} (h : m tr = (tr', .ok a)) : PM.bind m f tr = f a tr' := by
  simp [PM.bind, h]

theorem PM.bind_error {α β : Type} {m : PM α} {f : α → PM β} {tr tr' : List Event}
    {e : PyExc} (h : m tr = (tr', .error e)) : PM.bind m f tr = (tr', .error e) := by
  simp [PM.bind, h]

/-! ### C1: the circle formula -/

/-- C1: for a curve entry with `Center (cx, cy)` and `Radius r`, under XY
translation `(tx, ty)` and `sketch_scale s`, the circle drawn on the sketch
has center `((tx + s*cx) * 100, (ty + s*cy) * 100, 0)` and radius `s*r*100`;
the unit conversion multiplies scaled sketch coordinates plus the XY
translation by `UNIT_MULT = 100`. -/
theorem C1_circle_unit_conversion (idx : Nat) (tx ty s cx cy r : ℚ)
    (kvs : List (String × JsonV)) (tr : List Event)
    (hc : pyDictLookup kvs "Center" = some (.arr [.num cx, .num cy]))
    (hr : pyDictLookup kvs "Radius" = some (.num r)) :
    UNIT_MULT = 100 ∧
    drawCurve idx tx ty s (.obj kvs) tr =
      (tr ++ [Event.circleAdded idx ((tx + s * cx) * 100) ((ty + s * cy) * 100)
                0 ((s * r) * 100)], .ok true) := by
  refine ⟨rfl, ?_⟩
  simp [drawCurve, curveCompute, hc, hr, unpack2, asNum, liftE, PM.bind,
    _add_circle, emit, PM.pure, UNIT_MULT]

/-- Witness for C1 at a concrete curve entry. -/
theorem C1_witness :
    UNIT_MULT = 100 ∧
    drawCurve 0 1 2 3 (.obj [("Center", .arr [.num 10, .num 20]), ("Radius", .num 4)]) [] =
      ([Event.circleAdded 0 ((1 + 3 * 10) * 100) ((2 + 3 * 20) * 100) 0 ((3 * 4) * 100)],
       .ok true) :=
  C1_circle_unit_conversion 0 1 2 3 10 20 4
    [("Center", .arr [.num 10, .num 20]), ("Radius", .num 4)] [] rfl rfl

/-! ### C2: the extrusion distance and the 180-degree flip -/

/-- C2: the extrusion distance is `-(extrude_depth_towards_normal * 100)`
exactly when the Euler Angles list has length 3 and its first element modulo
`360.0` is within `1e-6` of `180.0`, and `+(extrude_depth_towards_normal * 100)`
otherwise — in particular whenever the Euler Angles list does not have
length 3. -/
theorem C2_distance_flip (e0 d : ℚ) (v1 v2 : JsonV) (es : List JsonV)
    (hlen : es.length ≠ 3) :
    computeDistance (.arr [.num e0, v1, v2]) (d * UNIT_MULT) =
      .ok (if |pymod e0 360 - 180| < 1 / 1000000 then -(d * 100) else d * 100) ∧
    computeDistance (.arr es) (d * UNIT_MULT) = .ok (d * 100) := by
  constructor
  · simp [computeDistance, pyLen, pyIndex0, asNum, UNIT_MULT]
  · simp [computeDistance, pyLen, pyIndex0, asNum, UNIT_MULT, hlen]
    intro h
    exfalso
    rw [show pymod 0 360 = 0 by norm_num [pymod]] at h
    norm_num at h

/-- Witness for C2: a part rotated by 180 degrees about X extrudes by minus
the scaled depth, and an empty Euler list extrudes by plus the scaled depth. -/
theorem C2_witness :
    computeDistance (.arr [.num 180, .num 0, .num 0]) (5 * UNIT_MULT) =
      .ok (if |pymod 180 360 - 180| < 1 / 1000000 then -(5 * 100) else 5 * 100) ∧
    computeDistance (.arr []) (5 * UNIT_MULT) = .ok (5 * 100) :=
  C2_distance_flip 180 5 (.num 0) (.num 0) [] (by decide)

/-! ### C3: the profile selection heuristic -/

theorem pickProfileAux_eq_none (ps : List Profile) (i : Nat) :
    pickProfileAux ps i = none ↔ ∀ x ∈ ps, x ≠ some 2 := by
  induction ps generalizing i with
  | nil => simp [pickProfileAux]
  | cons p rest ih =>
      cases p with
      | none => simp [pickProfileAux, ih]
      | some n =>
          by_cases hn : n = 2
          · subst hn
            simp [pickProfileAux]
          · simp [pickProfileAux, hn, ih]

theorem pickProfileAux_first (ps : List Profile) (j i : Nat)
    (hj : ps[j]? = some (some 2)) (hmin : ∀ k, k < j → ps[k]? ≠ some (some 2)) :
    pickProfileAux ps i = some (i + j) := by
  induction ps generalizing j i with
  | nil => simp at hj
  | cons p rest ih =>
      cases j with
      | zero =>
          simp at hj
          subst hj
          simp [pickProfileAux]
      | succ j' =>
          have hp : p ≠ some 2 := by
            intro h
            exact hmin 0 (Nat.succ_pos j') (by simp [h])
          have hrest : pickProfileAux rest (i + 1) = some ((i + 1) + j') := by
            refine ih j' (i + 1) (by simpa using hj) ?_
            intro k hk
            have := hmin (k + 1) (by omega)
            simpa using this
          have harith : (i + 1) + j' = i + (j' + 1) := by omega
          cases p with
          | none => simpa [pickProfileAux, harith] using hrest
          | some n =>
              have hn : n ≠ 2 := fun h => hp (by simp [h])
              simpa [pickProfileAux, hn, harith] using hrest

/-- C3: `_pick_profile_for_circles` returns `none` iff the sketch has zero
profiles; otherwise it returns the lowest-index profile whose `profileLoops`
count is exactly 2 when such a profile exists, and the profile at index 0 when
no profile has exactly two loops. -/
theorem C3_pick_profile (ps : List Profile) :
    (_pick_profile_for_circles ps = none ↔ ps = []) ∧
    (∀ j, ps[j]? = some (some 2) → (∀ k, k < j → ps[k]? ≠ some (some 2)) →
       _pick_profile_for_circles ps = some j) ∧
    ((∀ x ∈ ps, x ≠ some 2) → ps ≠ [] → _pick_profile_for_circles ps = some 0) := by
  refine ⟨?_, ?_, ?_⟩
  · constructor
    · intro h
      by_contra hne
      have hlen : ps.length ≠ 0 := fun hl => hne (List.length_eq_zero.mp hl)
      rw [_pick_profile_for_circles, if_neg hlen] at h
      cases haux : pickProfileAux ps 0 with
      | none => rw [haux] at h; simp at h
      | some i => rw [haux] at h; simp at h
    · intro h
      subst h
      rfl
  · intro j hj hmin
    have hlen : ps.length ≠ 0 := by
      intro hl
      rw [List.length_eq_zero.mp hl] at hj
      simp at hj
    have haux := pickProfileAux_first ps j 0 hj hmin
    rw [Nat.zero_add] at haux
    rw [_pick_profile_for_circles, if_neg hlen, haux]
  · intro hall hne
    have hlen : ps.length ≠ 0 := fun hl => hne (List.length_eq_zero.mp hl)
    have haux := (pickProfileAux_eq_none ps 0).mpr hall
    rw [_pick_profile_for_circles, if_neg hlen, haux]

/-- Witness for C3: on profiles `[one loop, two loops]` the annulus at
index 1 is picked. -/
theorem C3_witness : _pick_profile_for_circles [some 1, some 2] = some 1 :=
  (C3_pick_profile [some 1, some 2]).2.1 1 (by decide)
    (fun k hk => by
      interval_cases k
      decide)

/-! ### C4: the operation-name mapping -/

/-- C4 counterexample: a JSON array as the `operation` value is an unhashable
`dict` key, so `m.get` raises `TypeError` instead of mapping it to
`NewBodyFeatureOperation` as the claim states for "every other input". -/
theorem C4_counterexample :
    _map_operation (.arr []) = .error .typeError ∧
    _map_operation (.arr []) ≠ .ok FeatureOperations.NewBodyFeatureOperation :=
  ⟨rfl, fun h => by cases h⟩

/-- C4 amended: `_map_operation` maps each of the four operation-name strings
to the corresponding `FeatureOperations` value and every other hashable input
— any other string, and `null`, booleans, numbers; in particular the string
`'NewBodyFeatureOperation'` that line 137 substitutes for a missing
`operation` field — to `NewBodyFeatureOperation`; an unhashable input (a JSON
array or object) instead raises `TypeError`. -/
theorem C4_map_operation (s : String) (v : JsonV)
    (hs1 : s ≠ "NewBodyFeatureOperation") (hs2 : s ≠ "JoinFeatureOperation")
    (hs3 : s ≠ "CutFeatureOperation") (hs4 : s ≠ "IntersectFeatureOperation")
    (hv : hashableJson v = true) (hvs : ∀ t, v ≠ .str t)
    (kvs : List (String × JsonV)) (hk : pyDictLookup kvs "operation" = none) :
    _map_operation (.str "NewBodyFeatureOperation") = .ok .NewBodyFeatureOperation ∧
    _map_operation (.str "JoinFeatureOperation") = .ok .JoinFeatureOperation ∧
    _map_operation (.str "CutFeatureOperation") = .ok .CutFeatureOperation ∧
    _map_operation (.str "IntersectFeatureOperation") = .ok .IntersectFeatureOperation ∧
    _map_operation (.str s) = .ok .NewBodyFeatureOperation ∧
    _map_operation v = .ok .NewBodyFeatureOperation ∧
    pyGet (.obj kvs) "operation" (.str "NewBodyFeatureOperation") =
      .ok (.str "NewBodyFeatureOperation") ∧
    (∀ u : JsonV, hashableJson u = false → _map_operation u = .error .typeError) := by
  refine ⟨rfl, rfl, rfl, rfl, ?_, ?_, ?_, ?_⟩
  · simp [_map_operation, hs1, hs2, hs3, hs4]
  · cases v with
    | null => rfl
    | bool b => rfl
    | num q => rfl
    | str t => exact absurd rfl (hvs t)
    | arr xs => simp [hashableJson] at hv
    | obj kvs => simp [hashableJson] at hv
  · simp [pyGet, hk]
  · intro u hu
    cases u with
    | arr xs => rfl
    | obj kvs => rfl
    | null => simp [hashableJson] at hu
    | bool b => simp [hashableJson] at hu
    | num q => simp [hashableJson] at hu
    | str t => simp [hashableJson] at hu

/-- Witness for the amended C4 at an unmapped string and a numeric value. -/
theorem C4_witness :
    _map_operation (.str "NewBodyFeatureOperation") = .ok .NewBodyFeatureOperation ∧
    _map_operation (.str "JoinFeatureOperation") = .ok .JoinFeatureOperation ∧
    _map_operation (.str "CutFeatureOperation") = .ok .CutFeatureOperation ∧
    _map_operation (.str "IntersectFeatureOperation") = .ok .IntersectFeatureOperation ∧
    _map_operation (.str "SomethingElse") = .ok .NewBodyFeatureOperation ∧
    _map_operation (.num 7) = .ok .NewBodyFeatureOperation ∧
    pyGet (.obj [("sketch_scale", .num 1)]) "operation" (.str "NewBodyFeatureOperation") =
      .ok (.str "NewBodyFeatureOperation") ∧
    (∀ u : JsonV, hashableJson u = false → _map_operation u = .error .typeError) :=
  C4_map_operation "SomethingElse" (.num 7) (by decide) (by decide) (by decide)
    (by decide) rfl (fun t h => by cases h) [("sketch_scale", .num 1)] rfl

/-! ### C5: the top-level catch-all -/

/-- C5: every exception raised inside `run`'s main `try` block is caught by
the single top-level handler and reported as a message box containing the
formatted traceback appended to the trace produced so far; `run` itself never
ends in an exception, and when the body succeeds the handler adds nothing. -/
theorem C5_top_level_catch (env : Env) (hui : env.uiTruthy = true) :
    (runScript env).2 = .ok () ∧
    (∀ e tr, runBody env [] = (tr, .error e) →
       runScript env = (tr ++ [.message (failMsg e)], .ok ())) ∧
    (∀ tr, runBody env [] = (tr, .ok ()) → runScript env = (tr, .ok ())) := by
  refine ⟨?_, ?_, ?_⟩
  · rcases h : runBody env [] with ⟨tr, r⟩
    cases r with
    | ok u => simp [runScript, catchAll, h]
    | error e => simp [runScript, catchAll, h, hui, emit]
  · intro e tr h
    simp [runScript, catchAll, h, hui, emit]
  · intro tr h
    simp [runScript, catchAll, h]

/-- Witness for C5: with no active design, `_ensure_design` raises
`RuntimeError` and the script reports `Failed:` followed by the traceback. -/
theorem C5_witness :
    (runScript ⟨false, none, fun _ => ⟨[], false, false, 0, false, false⟩, true⟩).2 =
      .ok () ∧
    runScript ⟨false, none, fun _ => ⟨[], false, false, 0, false, false⟩, true⟩ =
      ([] ++ [.message (failMsg .runtimeError)], .ok ()) :=
  ⟨(C5_top_level_catch _ rfl).1,
   (C5_top_level_catch _ rfl).2.1 .runtimeError [] rfl⟩

/-! ### C7: missing or empty `parts`, and a cancelled dialog -/

/-- C7: when the chosen JSON has a falsy `parts` value (no `parts` key — the
default `{}` — or an empty mapping), `run` reports `No "parts" found in JSON.`
and returns having produced no other event, so no sketch, extrusion or move;
when the user cancels the file dialog, `run` returns with no report and no
event at all. -/
theorem C7_no_parts (env : Env) (data p : JsonV) (hdes : env.designOk = true) :
    (env.dialog = none → runScript env = ([], .ok ())) ∧
    (env.dialog = some (.ok data) → pyGet data "parts" (.obj []) = .ok p →
       pyTruthy p = false →
       runScript env = ([Event.message noPartsMsg], .ok ())) := by
  constructor
  · intro hd
    simp [runScript, catchAll, runBody, hdes, hd, liftE, PM.bind, PM.pure]
  · intro hd hp ht
    simp [runScript, catchAll, runBody, hdes, hd, hp, ht, liftE, PM.bind,
      PM.pure, emit]

/-- Witness for C7: a file whose top level is `{}` (so `parts` defaults to the
empty dict) produces only the report, and a cancelled dialog produces
nothing. -/
theorem C7_witness :
    runScript ⟨true, none, fun _ => ⟨[], false, false, 0, false, false⟩, true⟩ =
      ([], .ok ()) ∧
    runScript ⟨true, some (.ok (.obj [])), fun _ => ⟨[], false, false, 0, false, false⟩,
        true⟩ =
      ([Event.message noPartsMsg], .ok ()) :=
  ⟨(C7_no_parts ⟨true, none, fun _ => ⟨[], false, false, 0, false, false⟩, true⟩
      (.obj []) (.obj []) rfl).1 rfl,
   (C7_no_parts ⟨true, some (.ok (.obj [])),
      fun _ => ⟨[], false, false, 0, false, false⟩, true⟩
      (.obj []) (.obj []) rfl).2 rfl rfl rfl⟩

/-! ### C10: best-effort naming and moving -/

/-- C10: the naming/moving block always succeeds (the bare `except` swallows
any host exception, so it never aborts the per-part loop nor reaches the
top-level handler); it does anything at all only when the extrude feature and
its `bodies` collection are truthy with at least one body; a raising rename
produces no event; when the guard holds and renaming succeeds the first body
is renamed to the part name; and a move event implies the body was renamed
first, moving did not raise, and the `tz` guard held. -/
theorem C10_best_effort_swallows (env : Env) (idx : Nat) (name : String)
    (tzCm : ℚ) (tr : List Event) :
    ∃ Δ, bestEffort env idx name tzCm tr = (tr ++ Δ, .ok ()) ∧
      (Δ ≠ [] →
        ((env.host idx).extrudeTruthy && (env.host idx).bodiesTruthy
          && decide (0 < (env.host idx).bodiesCount)) = true) ∧
      ((env.host idx).renameRaises = true → Δ = []) ∧
      (((env.host idx).extrudeTruthy && (env.host idx).bodiesTruthy
          && decide (0 < (env.host idx).bodiesCount)) = true →
        (env.host idx).renameRaises = false → Event.bodyRenamed name ∈ Δ) ∧
      (∀ b dx dy dz, Event.moveAdded b dx dy dz ∈ Δ →
        b = name ∧ dx = 0 ∧ dy = 0 ∧ dz = tzCm ∧ Event.bodyRenamed name ∈ Δ ∧
        (env.host idx).moveRaises = false ∧ |tzCm| > 1 / 1000000000) := by
  by_cases hcond : ((env.host idx).extrudeTruthy && (env.host idx).bodiesTruthy
      && decide (0 < (env.host idx).bodiesCount)) = true
  · by_cases hren : (env.host idx).renameRaises = true
    · refine ⟨[], ?_, by simp, by simp, ?_, by simp⟩
      · simp [bestEffort, catchAll, bestEffortBody, hcond, hren, liftE,
          PM.bind, PM.pure]
      · intro _ hren'
        rw [hren'] at hren
        cases hren
    · have hren' : (env.host idx).renameRaises = false := by
        revert hren
        cases (env.host idx).renameRaises with
        | true => intro h; exact absurd rfl h
        | false => intro _; rfl
      by_cases htz : |tzCm| > (1 : ℚ) / 1000000000
      · by_cases hmv : (env.host idx).moveRaises = true
        · refine ⟨[.bodyRenamed name], ?_, fun _ => hcond, ?_, fun _ _ => by simp, ?_⟩
          · have htz' : (1000000000⁻¹ : ℚ) < |tzCm| := by simpa using htz
            simp [bestEffort, catchAll, bestEffortBody, hcond, hren', htz', hmv,
              liftE, PM.bind, PM.pure, emit]
          · intro h
            rw [h] at hren'
            cases hren'
          · intro b dx dy dz hb
            simp at hb
        · have hmv' : (env.host idx).moveRaises = false := by
            revert hmv
            cases (env.host idx).moveRaises with
            | true => intro h; exact absurd rfl h
            | false => intro _; rfl
          refine ⟨[.bodyRenamed name, .moveAdded name 0 0 tzCm], ?_,
            fun _ => hcond, ?_, fun _ _ => by simp, ?_⟩
          · have htz' : (1000000000⁻¹ : ℚ) < |tzCm| := by simpa using htz
            simp [bestEffort, catchAll, bestEffortBody, hcond, hren', htz', hmv',
              liftE, PM.bind, PM.pure, emit, _move_body]
          · intro h
            rw [h] at hren'
            cases hren'
          · intro b dx dy dz hb
            simp at hb
            obtain ⟨h1, h2, h3, h4⟩ := hb
            exact ⟨h1, h2, h3, h4, by simp, hmv', htz⟩
      · refine ⟨[.bodyRenamed name], ?_, fun _ => hcond, ?_, fun _ _ => by simp, ?_⟩
        · have htz' : ¬ (1000000000⁻¹ : ℚ) < |tzCm| := by simpa using htz
          simp [bestEffort, catchAll, bestEffortBody, hcond, hren', htz', liftE,
            PM.bind, PM.pure, emit]
        · intro h
          rw [h] at hren'
          cases hren'
        · intro b dx dy dz hb
          simp at hb
  · refine ⟨[], ?_, fun h => absurd rfl h, by simp, fun h _ => absurd h hcond,
      by simp⟩
    simp [bestEffort, catchAll, bestEffortBody, hcond, PM.pure]

/-- Witness for C10: a host with one body and no failures renames and moves. -/
theorem C10_witness :
    ∃ Δ, bestEffort ⟨true, none, fun _ => ⟨[some 2], true, true, 1, false, false⟩,
        true⟩ 0 "part_1" 300 [] = ([] ++ Δ, .ok ()) ∧
      (Δ ≠ [] → true = true) ∧
      (false = true → Δ = []) ∧
      (true = true → false = false → Event.bodyRenamed "part_1" ∈ Δ) ∧
      (∀ b dx dy dz, Event.moveAdded b dx dy dz ∈ Δ →
        b = "part_1" ∧ dx = 0 ∧ dy = 0 ∧ dz = 300 ∧
        Event.bodyRenamed "part_1" ∈ Δ ∧ false = false ∧
        |(300 : ℚ)| > 1 / 1000000000) := by
  have h := C10_best_effort_swallows
    ⟨true, none, fun _ => ⟨[some 2], true, true, 1, false, false⟩, true⟩
    0 "part_1" 300 []
  simpa using h

/-! ### Shape of the drawing loops' trace -/

/-- Recognize a circle event. -/
def isCircleEvent : Event → Bool
  | .circleAdded _ _ _ _ _ => true
  | _ => false

/-- `3` for sketch creation, `1` for extrusion, `2` for a move, `none`
otherwise.  (The numbers order the three geometry phases.) -/
def geomTag : Event → Option Nat
  | .sketchAdded _ _ => some 0
  | .extrudeAdded _ _ _ _ => some 1
  | .moveAdded _ _ _ _ => some 2
  | _ => none

theorem geomTag_of_circle {e : Event} (h : isCircleEvent e = true) :
    geomTag e = none := by
  cases e <;> simp_all [isCircleEvent, geomTag]

/-- Sequencing two computations that only append events satisfying `P`
appends only events satisfying `P`. -/
theorem bind_appends {α β : Type} {m : PM α} {f : α → PM β} {P : Event → Bool}
    (hm : ∀ tr, ∃ Δ r, m tr = (tr ++ Δ, r) ∧ ∀ e ∈ Δ, P e = true)
    (hf : ∀ a tr, ∃ Δ r, f a tr = (tr ++ Δ, r) ∧ ∀ e ∈ Δ, P e = true) :
    ∀ tr, ∃ Δ r, PM.bind m f tr = (tr ++ Δ, r) ∧ ∀ e ∈ Δ, P e = true := by
  intro tr
  obtain ⟨Δ1, r1, h1, hp1⟩ := hm tr
  cases r1 with
  | error e =>
      exact ⟨Δ1, .error e, by simp [PM.bind, h1], hp1⟩
  | ok a =>
      obtain ⟨Δ2, r2, h2, hp2⟩ := hf a (tr ++ Δ1)
      refine ⟨Δ1 ++ Δ2, r2, ?_, ?_⟩
      · simp [PM.bind, h1, h2, List.append_assoc]
      · intro e he
        rcases List.mem_append.mp he with h | h
        · exact hp1 e h
        · exact hp2 e h

theorem pure_appends {α : Type} (a : α) (P : Event → Bool) :
    ∀ tr, ∃ Δ r, PM.pure a tr = (tr ++ Δ, r) ∧ ∀ e ∈ Δ, P e = true :=
  fun tr => ⟨[], .ok a, by simp [PM.pure], by simp⟩

theorem drawCurve_appends (idx : Nat) (tx ty s : ℚ) (c : JsonV) :
    ∀ tr, ∃ Δ r, drawCurve idx tx ty s c tr = (tr ++ Δ, r) ∧
      ∀ e ∈ Δ, isCircleEvent e = true := by
  intro tr
  cases hc : curveCompute tx ty s c with
  | error e =>
      exact ⟨[], .error e, by simp [drawCurve, PM.bind, liftE, hc], by simp⟩
  | ok res =>
      cases res with
      | none =>
          exact ⟨[], .ok false, by simp [drawCurve, PM.bind, liftE, hc, PM.pure],
            by simp⟩
      | some v =>
          obtain ⟨cx, cy, r⟩ := v
          refine ⟨[.circleAdded idx cx cy 0 r], .ok true, ?_, by
            simp [isCircleEvent]⟩
          simp [drawCurve, PM.bind, liftE, hc, _add_circle, emit, PM.pure]

theorem drawCurves_appends (idx : Nat) (tx ty s : ℚ) (cs : List JsonV) :
    ∀ tr, ∃ Δ r, drawCurves idx tx ty s cs tr = (tr ++ Δ, r) ∧
      ∀ e ∈ Δ, isCircleEvent e = true := by
  induction cs with
  | nil => simpa [drawCurves] using pure_appends false isCircleEvent
  | cons c cs ih =>
      intro tr
      exact bind_appends (drawCurve_appends idx tx ty s c)
        (fun b => bind_appends ih (fun b' => pure_appends (b || b') _)) tr

theorem drawLoops_appends (idx : Nat) (tx ty s : ℚ) (kvs : List (String × JsonV)) :
    ∀ tr, ∃ Δ r, drawLoops idx tx ty s kvs tr = (tr ++ Δ, r) ∧
      ∀ e ∈ Δ, isCircleEvent e = true := by
  induction kvs with
  | nil => simpa [drawLoops] using pure_appends false isCircleEvent
  | cons kv rest ih =>
      obtain ⟨k, lv⟩ := kv
      intro tr
      refine bind_appends ?_ (fun b => bind_appends ih (fun b' => pure_appends (b || b') _)) tr
      cases lv with
      | obj cvs => exact drawCurves_appends idx tx ty s (cvs.map Prod.snd)
      | null => exact pure_appends false _
      | bool b => exact pure_appends false _
      | num q => exact pure_appends false _
      | str t => exact pure_appends false _
      | arr xs => exact pure_appends false _

theorem drawFaces_appends (idx : Nat) (tx ty s : ℚ) (faces : List JsonV) :
    ∀ tr, ∃ Δ r, drawFaces idx tx ty s faces tr = (tr ++ Δ, r) ∧
      ∀ e ∈ Δ, isCircleEvent e = true := by
  induction faces with
  | nil => simpa [drawFaces] using pure_appends false isCircleEvent
  | cons f fs ih =>
      intro tr
      refine bind_appends ?_ (fun b => bind_appends ih (fun b' => pure_appends (b || b') _)) tr
      cases f with
      | obj kvs => exact drawLoops_appends idx tx ty s kvs
      | null => exact pure_appends false _
      | bool b => exact pure_appends false _
      | num q => exact pure_appends false _
      | str t => exact pure_appends false _
      | arr xs => exact pure_appends false _

/-- The three possible traces of the naming/moving block. -/
theorem bestEffort_shape (env : Env) (idx : Nat) (name : String) (tzCm : ℚ)
    (tr : List Event) :
    ∃ Δ, bestEffort env idx name tzCm tr = (tr ++ Δ, .ok ()) ∧
      (Δ = [] ∨ Δ = [.bodyRenamed name] ∨
       (Δ = [.bodyRenamed name, .moveAdded name 0 0 tzCm] ∧
        |tzCm| > 1 / 1000000000)) := by
  by_cases hcond : ((env.host idx).extrudeTruthy && (env.host idx).bodiesTruthy
      && decide (0 < (env.host idx).bodiesCount)) = true
  · by_cases hren : (env.host idx).renameRaises = true
    · refine ⟨[], ?_, Or.inl rfl⟩
      simp [bestEffort, catchAll, bestEffortBody, hcond, hren, liftE, PM.bind,
        PM.pure]
    · have hren' : (env.host idx).renameRaises = false := by
        revert hren
        cases (env.host idx).renameRaises with
        | true => intro h; exact absurd rfl h
        | false => intro _; rfl
      by_cases htz : (1000000000⁻¹ : ℚ) < |tzCm|
      · by_cases hmv : (env.host idx).moveRaises = true
        · refine ⟨[.bodyRenamed name], ?_, Or.inr (Or.inl rfl)⟩
          simp [bestEffort, catchAll, bestEffortBody, hcond, hren', htz, hmv,
            liftE, PM.bind, PM.pure, emit]
        · have hmv' : (env.host idx).moveRaises = false := by
            revert hmv
            cases (env.host idx).moveRaises with
            | true => intro h; exact absurd rfl h
            | false => intro _; rfl
          refine ⟨[.bodyRenamed name, .moveAdded name 0 0 tzCm], ?_,
            Or.inr (Or.inr ⟨rfl, by simpa using htz⟩)⟩
          simp [bestEffort, catchAll, bestEffortBody, hcond, hren', htz, hmv',
            liftE, PM.bind, PM.pure, emit, _move_body]
      · refine ⟨[.bodyRenamed name], ?_, Or.inr (Or.inl rfl)⟩
        simp [bestEffort, catchAll, bestEffortBody, hcond, hren', htz, liftE,
          PM.bind, PM.pure, emit]
  · refine ⟨[], ?_, Or.inl rfl⟩
    simp [bestEffort, catchAll, bestEffortBody, hcond, PM.pure]

theorem circles_filterMap_nil {Δ : List Event}
    (h : ∀ e ∈ Δ, isCircleEvent e = true) : Δ.filterMap geomTag = [] := by
  induction Δ with
  | nil => rfl
  | cons e es ih =>
      have he := geomTag_of_circle (h e (by simp))
      simp only [List.filterMap_cons, he]
      exact ih (fun x hx => h x (by simp [hx]))

/-! ### C6: per-part phase order and the Z-only move -/

/-- C6: every part iteration produces its geometry events in the order
sketch-creation (on the XY construction plane), then extrusion, then at most
one move, each phase present only when the earlier ones are; a move event
moves exactly the body renamed to this part's name, by `(0, 0, tz * 100)`
with `|tz * 100| > 1e-9`, where `tz` is the part's translation-vector Z
component. -/
theorem C6_phase_order (env : Env) (idx : Nat) (name : String) (part : JsonV)
    (tr : List Event) :
    ∃ Δ r, processPart env idx name part tr = (tr ++ Δ, r) ∧
      (Δ.filterMap geomTag = [] ∨ Δ.filterMap geomTag = [0] ∨
       Δ.filterMap geomTag = [0, 1] ∨ Δ.filterMap geomTag = [0, 1, 2]) ∧
      (∀ i pl, Event.sketchAdded i pl ∈ Δ → pl = "xYConstructionPlane") ∧
      (∀ b dx dy dz, Event.moveAdded b dx dy dz ∈ Δ →
        b = name ∧ dx = 0 ∧ dy = 0 ∧ |dz| > 1 / 1000000000 ∧
        ∃ tx ty tz euler, prePhase part = Except.ok (tx, ty, tz, euler) ∧
          dz = tz * UNIT_MULT) := by
  cases hpre : prePhase part with
  | error e =>
      refine ⟨[], .error e, ?_, Or.inl rfl, by simp, by simp⟩
      simp [processPart, PM.bind, liftE, hpre]
  | ok pre =>
      obtain ⟨tx, ty, tz, euler⟩ := pre
      cases hsp : sketchPhase part with
      | error e =>
          refine ⟨[Event.sketchAdded idx "xYConstructionPlane"], .error e, ?_,
            Or.inr (Or.inl rfl), by simp, by simp⟩
          simp [processPart, PM.bind, liftE, emit, hpre, hsp]
      | ok sp =>
          obtain ⟨faces, s⟩ := sp
          obtain ⟨Δc, rc, hdf, hcirc⟩ := drawFaces_appends idx tx ty s faces
            (tr ++ [Event.sketchAdded idx "xYConstructionPlane"])
          have htagc := circles_filterMap_nil hcirc
          have hsketchc : ∀ i pl, Event.sketchAdded i pl ∈ Δc → False := by
            intro i pl h
            have := hcirc _ h
            simp [isCircleEvent] at this
          have hmovec : ∀ b dx dy dz, Event.moveAdded b dx dy dz ∈ Δc → False := by
            intro b dx dy dz h
            have := hcirc _ h
            simp [isCircleEvent] at this
          cases rc with
          | error e =>
              refine ⟨Event.sketchAdded idx "xYConstructionPlane" :: Δc, .error e,
                ?_, Or.inr (Or.inl ?_), ?_, ?_⟩
              · simp [processPart, PM.bind, liftE, emit, hpre, hsp, hdf]
              · simp [List.filterMap_cons, geomTag, htagc]
              · intro i pl h
                rcases List.mem_cons.mp h with h | h
                · cases h; rfl
                · exact absurd h (fun hh => hsketchc i pl hh)
              · intro b dx dy dz h
                rcases List.mem_cons.mp h with h | h
                · cases h
                · exact absurd h (fun hh => hmovec b dx dy dz hh)
          | ok drew =>
              cases drew with
              | false =>
                  refine ⟨Event.sketchAdded idx "xYConstructionPlane" :: Δc
                      ++ [Event.message (noCirclesMsg name)], .ok (), ?_,
                    Or.inr (Or.inl ?_), ?_, ?_⟩
                  · simp [processPart, PM.bind, liftE, emit, hpre, hsp, hdf]
                  · simp [List.filterMap_cons, List.filterMap_append, geomTag,
                      htagc]
                  · intro i pl h
                    rcases List.mem_append.mp h with h | h
                    · rcases List.mem_cons.mp h with h | h
                      · cases h; rfl
                      · exact absurd h (fun hh => hsketchc i pl hh)
                    · simp at h
                  · intro b dx dy dz h
                    rcases List.mem_append.mp h with h | h
                    · rcases List.mem_cons.mp h with h | h
                      · cases h
                      · exact absurd h (fun hh => hmovec b dx dy dz hh)
                    · simp at h
              | true =>
                  cases hpp : _pick_profile_for_circles (env.host idx).profiles with
                  | none =>
                      refine ⟨Event.sketchAdded idx "xYConstructionPlane" :: Δc
                          ++ [Event.message (noProfileMsg name)], .ok (), ?_,
                        Or.inr (Or.inl ?_), ?_, ?_⟩
                      · simp [processPart, PM.bind, liftE, emit, hpre, hsp, hdf, hpp]
                      · simp [List.filterMap_cons, List.filterMap_append, geomTag,
                          htagc]
                      · intro i pl h
                        rcases List.mem_append.mp h with h | h
                        · rcases List.mem_cons.mp h with h | h
                          · cases h; rfl
                          · exact absurd h (fun hh => hsketchc i pl hh)
                        · simp at h
                      · intro b dx dy dz h
                        rcases List.mem_append.mp h with h | h
                        · rcases List.mem_cons.mp h with h | h
                          · cases h
                          · exact absurd h (fun hh => hmovec b dx dy dz hh)
                        · simp at h
                  | some pIdx =>
                      cases hep : extrudePhase part euler with
                      | error e =>
                          refine ⟨Event.sketchAdded idx "xYConstructionPlane" :: Δc,
                            .error e, ?_, Or.inr (Or.inl ?_), ?_, ?_⟩
                          · simp [processPart, PM.bind, liftE, emit, hpre, hsp,
                              hdf, hpp, hep]
                          · simp [List.filterMap_cons, geomTag, htagc]
                          · intro i pl h
                            rcases List.mem_cons.mp h with h | h
                            · cases h; rfl
                            · exact absurd h (fun hh => hsketchc i pl hh)
                          · intro b dx dy dz h
                            rcases List.mem_cons.mp h with h | h
                            · cases h
                            · exact absurd h (fun hh => hmovec b dx dy dz hh)
                      | ok od =>
                          obtain ⟨op, dist⟩ := od
                          obtain ⟨Δb, hbe, hsh⟩ := bestEffort_shape env idx name
                            (tz * UNIT_MULT)
                            (tr ++ [Event.sketchAdded idx "xYConstructionPlane"]
                              ++ Δc ++ [Event.extrudeAdded idx pIdx op dist])
                          refine ⟨Event.sketchAdded idx "xYConstructionPlane" :: Δc
                              ++ Event.extrudeAdded idx pIdx op dist :: Δb, .ok (),
                            ?_, ?_, ?_, ?_⟩
                          · simp [processPart, PM.bind, liftE, emit, hpre, hsp,
                              hdf, hpp, hep, List.append_assoc]
                            simpa [List.append_assoc] using hbe
                          · rcases hsh with h | h | ⟨h, hgt⟩ <;>
                              simp [h, List.filterMap_cons, List.filterMap_append,
                                geomTag, htagc]
                          · intro i pl h
                            rcases List.mem_cons.mp h with h | h
                            · cases h; rfl
                            · rcases List.mem_append.mp h with h | h
                              · exact absurd h (fun hh => hsketchc i pl hh)
                              · rcases List.mem_cons.mp h with h | h
                                · cases h
                                · rcases hsh with hb | hb | ⟨hb, hgt⟩ <;>
                                    subst hb <;> simp at h
                          · intro b dx dy dz h
                            rcases List.mem_cons.mp h with h | h
                            · cases h
                            · rcases List.mem_append.mp h with h | h
                              · exact absurd h (fun hh => hmovec b dx dy dz hh)
                              · rcases List.mem_cons.mp h with h | h
                                · cases h
                                · rcases hsh with hb | hb | ⟨hb, hgt⟩
                                  · subst hb; simp at h
                                  · subst hb; simp at h
                                  · subst hb
                                    simp at h
                                    obtain ⟨h1, h2, h3, h4⟩ := h
                                    refine ⟨h1, h2, h3, by rw [h4]; exact hgt,
                                      tx, ty, tz, euler, rfl, h4⟩

/-- Witness for C6 at a concrete part whose move fires: the trace is sketch,
circle, extrude, rename, move. -/
theorem C6_witness :
    ∃ Δ r, processPart
      ⟨true, none, fun _ => ⟨[some 2], true, true, 1, false, false⟩, true⟩ 0 "p"
      (.obj [("coordinate_system", .obj [("Translation Vector",
          .arr [.num 0, .num 0, .num 3])]),
        ("sketch", .obj [("face_1", .obj [("loop_1", .obj [("circle_1",
          .obj [("Center", .arr [.num 1, .num 2]), ("Radius", .num 4)])])])])])
      [] = ([] ++ Δ, r) ∧
      (Δ.filterMap geomTag = [] ∨ Δ.filterMap geomTag = [0] ∨
       Δ.filterMap geomTag = [0, 1] ∨ Δ.filterMap geomTag = [0, 1, 2]) ∧
      (∀ i pl, Event.sketchAdded i pl ∈ Δ → pl = "xYConstructionPlane") ∧
      (∀ b dx dy dz, Event.moveAdded b dx dy dz ∈ Δ →
        b = "p" ∧ dx = 0 ∧ dy = 0 ∧ |dz| > 1 / 1000000000 ∧
        ∃ tx ty tz euler, prePhase
          (.obj [("coordinate_system", .obj [("Translation Vector",
              .arr [.num 0, .num 0, .num 3])]),
            ("sketch", .obj [("face_1", .obj [("loop_1", .obj [("circle_1",
              .obj [("Center", .arr [.num 1, .num 2]), ("Radius", .num 4)])])])])])
          = Except.ok (tx, ty, tz, euler) ∧ dz = tz * UNIT_MULT) :=
  C6_phase_order _ 0 "p" _ []

/-! ### C8: defaults for missing JSON fields -/

/-- A part whose only key is `sketch`, with a single unit circle at `(1, 2)`. -/
def onlySketchPart : JsonV :=
  .obj [("sketch", .obj [("face_1", .obj [("loop_1", .obj [("circle_1",
    .obj [("Center", .arr [.num 1, .num 2]), ("Radius", .num 3)])])])])]

/-- A quiet host for the defaults check: one annulus profile, and an extrude
feature reporting no bodies. -/
def quietEnv : Env := ⟨true, none, fun _ => ⟨[some 2], false, false, 0, false, false⟩, true⟩

/-- C8: missing fields take fixed defaults — an absent `coordinate_system`
yields translation `(0, 0, 0)` and Euler angles `(0, 0, 0)`; an absent
`extrusion` yields `sketch_scale` 1, depth 0 and `NewBodyFeatureOperation`
with extrusion distance 0; and a part with only a `sketch` key is still
sketched and extruded, with distance 0, at the origin. -/
theorem C8_defaults (kvs svs : List (String × JsonV))
    (hcs : pyDictLookup kvs "coordinate_system" = none)
    (hex : pyDictLookup kvs "extrusion" = none)
    (hsk : pyDictLookup kvs "sketch" = some (.obj svs)) :
    prePhase (.obj kvs) = .ok (0, 0, 0, .arr [.num 0, .num 0, .num 0]) ∧
    sketchPhase (.obj kvs) = .ok (svs.map Prod.snd, 1) ∧
    extrudePhase (.obj kvs) (.arr [.num 0, .num 0, .num 0]) =
      .ok (.NewBodyFeatureOperation, 0) ∧
    processPart quietEnv 0 "part_1" onlySketchPart [] =
      ([Event.sketchAdded 0 "xYConstructionPlane",
        Event.circleAdded 0 ((0 + 1 * 1) * 100) ((0 + 1 * 2) * 100) 0 ((1 * 3) * 100),
        Event.extrudeAdded 0 0 .NewBodyFeatureOperation 0], .ok ()) := by
  refine ⟨?_, ?_, ?_, ?_⟩
  · simp [prePhase, pyGet, hcs, pyDictLookup, unpack3, asNum]
  · simp [sketchPhase, pyGet, hex, hsk, pyDictLookup, pyFloat, pyValues]
  · have hmod : pymod 0 360 = 0 := by norm_num [pymod]
    simp [extrudePhase, pyGet, hex, pyDictLookup, pyFloat, _map_operation,
      computeDistance, pyLen, pyIndex0, asNum, UNIT_MULT, hmod]
  · simp [processPart, PM.bind, liftE, emit, PM.pure, prePhase, sketchPhase,
      extrudePhase, pyGet, pyDictLookup, unpack3, asNum, pyFloat, pyValues,
      drawFaces, drawLoops, drawCurves, drawCurve, curveCompute, unpack2,
      _add_circle, _pick_profile_for_circles, pickProfileAux, computeDistance,
      pyLen, pyIndex0, _map_operation, bestEffort, bestEffortBody, catchAll,
      UNIT_MULT, quietEnv, onlySketchPart, pymod]

/-- Witness for C8 at the concrete one-key part. -/
theorem C8_witness :
    prePhase (.obj [("sketch", .obj [])]) =
      .ok (0, 0, 0, .arr [.num 0, .num 0, .num 0]) ∧
    sketchPhase (.obj [("sketch", .obj [])]) = .ok ([], 1) ∧
    extrudePhase (.obj [("sketch", .obj [])]) (.arr [.num 0, .num 0, .num 0]) =
      .ok (.NewBodyFeatureOperation, 0) ∧
    processPart quietEnv 0 "part_1" onlySketchPart [] =
      ([Event.sketchAdded 0 "xYConstructionPlane",
        Event.circleAdded 0 ((0 + 1 * 1) * 100) ((0 + 1 * 2) * 100) 0 ((1 * 3) * 100),
        Event.extrudeAdded 0 0 .NewBodyFeatureOperation 0], .ok ()) :=
  C8_defaults [("sketch", .obj [])] [] rfl rfl rfl

/-! ### C9: which curve entries produce circles, and per-part isolation -/

/-- A JSON value whose arithmetic use succeeds (number or boolean). -/
def numlike : JsonV → Bool
  | .num _ => true
  | .bool _ => true
  | _ => false

/-- A curve value qualifies for drawing when it is a dict containing both a
`Center` and a `Radius` key (lines 113-116). -/
def qualifiesCurve : JsonV → Bool
  | .obj kvs => (pyDictLookup kvs "Center").isSome && (pyDictLookup kvs "Radius").isSome
  | _ => false

/-- Well-formedness of one curve value: when it qualifies, its `Center` is a
two-element list of numbers and its `Radius` is a number, so that drawing it
cannot raise. -/
def wfCurve : JsonV → Bool
  | .obj kvs =>
      match pyDictLookup kvs "Center", pyDictLookup kvs "Radius" with
      | some ctr, some rad =>
          (match ctr with
           | .arr [a, b] => numlike a && numlike b
           | _ => false) && numlike rad
      | _, _ => true
  | _ => true

/-- The number of qualifying curve values in a list. -/
def countCurves : List JsonV → Nat
  | [] => 0
  | c :: cs => (if qualifiesCurve c then 1 else 0) + countCurves cs

/-- The qualifying curves of a loop value (0 unless it is a dict). -/
def countLoop : JsonV → Nat
  | .obj cvs => countCurves (cvs.map Prod.snd)
  | _ => 0

def wfLoop : JsonV → Bool
  | .obj cvs => (cvs.map Prod.snd).all wfCurve
  | _ => true

def countLoops : List (String × JsonV) → Nat
  | [] => 0
  | (_, lv) :: rest => countLoop lv + countLoops rest

def wfLoops : List (String × JsonV) → Bool
  | [] => true
  | (_, lv) :: rest => wfLoop lv && wfLoops rest

/-- The qualifying curves of a face value (0 unless it is a dict). -/
def countFace : JsonV → Nat
  | .obj kvs => countLoops kvs
  | _ => 0

def wfFace : JsonV → Bool
  | .obj kvs => wfLoops kvs
  | _ => true

/-- The qualifying curve dicts nested three levels under `sketch`. -/
def countFaces : List JsonV → Nat
  | [] => 0
  | f :: fs => countFace f + countFaces fs

def wfFaces : List JsonV → Bool
  | [] => true
  | f :: fs => wfFace f && wfFaces fs

theorem decide_pos_add (a b : Nat) :
    (decide (0 < a) || decide (0 < b)) = decide (0 < a + b) := by
  by_cases h : 0 < a
  · have h' : 0 < a + b := by omega
    simp [h, h']
  · have ha : a = 0 := by omega
    subst ha
    simp

theorem drawCurve_count (idx : Nat) (tx ty s : ℚ) (c : JsonV)
    (hwf : wfCurve c = true) :
    ∀ tr, ∃ Δ, drawCurve idx tx ty s c tr = (tr ++ Δ, .ok (decide (0 < countCurves [c]))) ∧
      Δ.length = countCurves [c] ∧ ∀ e ∈ Δ, isCircleEvent e = true := by
  intro tr
  cases c with
  | obj kvs =>
      cases hc : pyDictLookup kvs "Center" with
      | none =>
          refine ⟨[], ?_, ?_, by simp⟩
          · simp [drawCurve, curveCompute, hc, liftE, PM.bind, PM.pure,
              countCurves, qualifiesCurve]
          · simp [countCurves, qualifiesCurve, hc]
      | some ctr =>
          cases hr : pyDictLookup kvs "Radius" with
          | none =>
              refine ⟨[], ?_, ?_, by simp⟩
              · simp [drawCurve, curveCompute, hc, hr, liftE, PM.bind, PM.pure,
                  countCurves, qualifiesCurve]
              · simp [countCurves, qualifiesCurve, hc, hr]
          | some rad =>
              simp only [wfCurve, hc, hr] at hwf
              obtain ⟨hctr, hrad⟩ := Bool.and_eq_true_iff.mp hwf
              have hq : countCurves [.obj kvs] = 1 := by
                simp [countCurves, qualifiesCurve, hc, hr]
              rw [hq]
              match ctr, hctr with
              | .arr [a, b], hctr =>
                obtain ⟨ha, hb⟩ := Bool.and_eq_true_iff.mp hctr
                obtain ⟨qa, hqa⟩ : ∃ q, asNum a = .ok q := by
                  cases a <;> simp_all [numlike, asNum]
                obtain ⟨qb, hqb⟩ : ∃ q, asNum b = .ok q := by
                  cases b <;> simp_all [numlike, asNum]
                obtain ⟨qr, hqr⟩ : ∃ q, asNum rad = .ok q := by
                  cases rad <;> simp_all [numlike, asNum]
                refine ⟨[.circleAdded idx ((tx + s * qa) * UNIT_MULT)
                    ((ty + s * qb) * UNIT_MULT) 0 ((s * qr) * UNIT_MULT)],
                  ?_, by simp, by simp [isCircleEvent]⟩
                simp [drawCurve, curveCompute, hc, hr, unpack2, hqa, hqb, hqr,
                  liftE, PM.bind, PM.pure, _add_circle, emit]
  | null => exact ⟨[], by simp [drawCurve, curveCompute, liftE, PM.bind, PM.pure,
      countCurves, qualifiesCurve], by simp [countCurves, qualifiesCurve], by simp⟩
  | bool b => exact ⟨[], by simp [drawCurve, curveCompute, liftE, PM.bind, PM.pure,
      countCurves, qualifiesCurve], by simp [countCurves, qualifiesCurve], by simp⟩
  | num q => exact ⟨[], by simp [drawCurve, curveCompute, liftE, PM.bind, PM.pure,
      countCurves, qualifiesCurve], by simp [countCurves, qualifiesCurve], by simp⟩
  | str t => exact ⟨[], by simp [drawCurve, curveCompute, liftE, PM.bind, PM.pure,
      countCurves, qualifiesCurve], by simp [countCurves, qualifiesCurve], by simp⟩
  | arr xs => exact ⟨[], by simp [drawCurve, curveCompute, liftE, PM.bind, PM.pure,
      countCurves, qualifiesCurve], by simp [countCurves, qualifiesCurve], by simp⟩

theorem drawCurves_count (idx : Nat) (tx ty s : ℚ) (cs : List JsonV)
    (hwf : cs.all wfCurve = true) :
    ∀ tr, ∃ Δ, drawCurves idx tx ty s cs tr = (tr ++ Δ, .ok (decide (0 < countCurves cs))) ∧
      Δ.length = countCurves cs ∧ ∀ e ∈ Δ, isCircleEvent e = true := by
  induction cs with
  | nil =>
      intro tr
      exact ⟨[], by simp [drawCurves, PM.pure, countCurves], by simp [countCurves],
        by simp⟩
  | cons c cs ih =>
      intro tr
      simp only [List.all_cons, Bool.and_eq_true] at hwf
      obtain ⟨hwc, hwcs⟩ := hwf
      obtain ⟨Δ1, h1, hl1, hp1⟩ := drawCurve_count idx tx ty s c hwc tr
      obtain ⟨Δ2, h2, hl2, hp2⟩ := ih hwcs (tr ++ Δ1)
      refine ⟨Δ1 ++ Δ2, ?_, ?_, ?_⟩
      · have : countCurves (c :: cs) = countCurves [c] + countCurves cs := by
          simp [countCurves]
        rw [this, ← decide_pos_add]
        simp [drawCurves, PM.bind, h1, h2, PM.pure, List.append_assoc]
      · simp [List.length_append, hl1, hl2, countCurves]
      · intro e he
        rcases List.mem_append.mp he with h | h
        · exact hp1 e h
        · exact hp2 e h

theorem drawLoops_count (idx : Nat) (tx ty s : ℚ) (kvs : List (String × JsonV))
    (hwf : wfLoops kvs = true) :
    ∀ tr, ∃ Δ, drawLoops idx tx ty s kvs tr = (tr ++ Δ, .ok (decide (0 < countLoops kvs))) ∧
      Δ.length = countLoops kvs ∧ ∀ e ∈ Δ, isCircleEvent e = true := by
  induction kvs with
  | nil =>
      intro tr
      exact ⟨[], by simp [drawLoops, PM.pure, countLoops], by simp [countLoops],
        by simp⟩
  | cons kv rest ih =>
      obtain ⟨k, lv⟩ := kv
      intro tr
      simp only [wfLoops, Bool.and_eq_true] at hwf
      obtain ⟨hwl, hwrest⟩ := hwf
      have step : ∃ Δ, (match lv with
          | .obj cvs => drawCurves idx tx ty s (cvs.map Prod.snd)
          | _ => PM.pure false) tr = (tr ++ Δ, .ok (decide (0 < countLoop lv))) ∧
          Δ.length = countLoop lv ∧ ∀ e ∈ Δ, isCircleEvent e = true := by
        cases lv with
        | obj cvs =>
            simp only [wfLoop] at hwl
            simpa [countLoop] using drawCurves_count idx tx ty s
              (cvs.map Prod.snd) hwl tr
        | null => exact ⟨[], by simp [PM.pure, countLoop], by simp [countLoop], by simp⟩
        | bool b => exact ⟨[], by simp [PM.pure, countLoop], by simp [countLoop], by simp⟩
        | num q => exact ⟨[], by simp [PM.pure, countLoop], by simp [countLoop], by simp⟩
        | str t => exact ⟨[], by simp [PM.pure, countLoop], by simp [countLoop], by simp⟩
        | arr xs => exact ⟨[], by simp [PM.pure, countLoop], by simp [countLoop], by simp⟩
      obtain ⟨Δ1, h1, hl1, hp1⟩ := step
      obtain ⟨Δ2, h2, hl2, hp2⟩ := ih hwrest (tr ++ Δ1)
      refine ⟨Δ1 ++ Δ2, ?_, ?_, ?_⟩
      · have : countLoops ((k, lv) :: rest) = countLoop lv + countLoops rest := rfl
        rw [this, ← decide_pos_add]
        simp [drawLoops, PM.bind, h1, h2, PM.pure, List.append_assoc]
      · simp [List.length_append, hl1, hl2, countLoops]
      · intro e he
        rcases List.mem_append.mp he with h | h
        · exact hp1 e h
        · exact hp2 e h

theorem drawFaces_count (idx : Nat) (tx ty s : ℚ) (faces : List JsonV)
    (hwf : wfFaces faces = true) :
    ∀ tr, ∃ Δ, drawFaces idx tx ty s faces tr = (tr ++ Δ, .ok (decide (0 < countFaces faces))) ∧
      Δ.length = countFaces faces ∧ ∀ e ∈ Δ, isCircleEvent e = true := by
  induction faces with
  | nil =>
      intro tr
      exact ⟨[], by simp [drawFaces, PM.pure, countFaces], by simp [countFaces],
        by simp⟩
  | cons f fs ih =>
      intro tr
      simp only [wfFaces, Bool.and_eq_true] at hwf
      obtain ⟨hwField, hwrest⟩ := hwf
      have step : ∃ Δ, (match f with
          | .obj kvs => drawLoops idx tx ty s kvs
          | _ => PM.pure false) tr = (tr ++ Δ, .ok (decide (0 < countFace f))) ∧
          Δ.length = countFace f ∧ ∀ e ∈ Δ, isCircleEvent e = true := by
        cases f with
        | obj kvs =>
            simp only [wfFace] at hwField
            simpa [countFace] using drawLoops_count idx tx ty s kvs hwField tr
        | null => exact ⟨[], by simp [PM.pure, countFace], by simp [countFace], by simp⟩
        | bool b => exact ⟨[], by simp [PM.pure, countFace], by simp [countFace], by simp⟩
        | num q => exact ⟨[], by simp [PM.pure, countFace], by simp [countFace], by simp⟩
        | str t => exact ⟨[], by simp [PM.pure, countFace], by simp [countFace], by simp⟩
        | arr xs => exact ⟨[], by simp [PM.pure, countFace], by simp [countFace], by simp⟩
      obtain ⟨Δ1, h1, hl1, hp1⟩ := step
      obtain ⟨Δ2, h2, hl2, hp2⟩ := ih hwrest (tr ++ Δ1)
      refine ⟨Δ1 ++ Δ2, ?_, ?_, ?_⟩
      · have : countFaces (f :: fs) = countFace f + countFaces fs := rfl
        rw [this, ← decide_pos_add]
        simp [drawFaces, PM.bind, h1, h2, PM.pure, List.append_assoc]
      · simp [List.length_append, hl1, hl2, countFaces]
      · intro e he
        rcases List.mem_append.mp he with h | h
        · exact hp1 e h
        · exact hp2 e h

/-- C9: a circle is drawn exactly for each dict nested three levels under
`sketch` (face → loop → curve) containing both `Center` and `Radius` (with
drawable values); non-dict values and dicts missing either key are skipped
silently (no event, no message); a part for which no circle was drawn, or no
profile was found, triggers one per-part message box and completes normally
(`continue`), so the loop moves on to the remaining parts, and when every
iteration completes normally `Replay complete.` is still reported. -/
theorem C9_per_part_isolation :
    (∀ (idx : Nat) (tx ty s : ℚ) (faces : List JsonV) (tr : List Event),
      wfFaces faces = true →
      ∃ Δ, drawFaces idx tx ty s faces tr =
          (tr ++ Δ, .ok (decide (0 < countFaces faces))) ∧
        Δ.length = countFaces faces ∧ ∀ e ∈ Δ, isCircleEvent e = true) ∧
    (∀ (env : Env) (i : Nat) (name : String) (part : JsonV) (tr : List Event)
        (tx ty tz : ℚ) (euler : JsonV) (faces : List JsonV) (s : ℚ),
      prePhase part = .ok (tx, ty, tz, euler) →
      sketchPhase part = .ok (faces, s) →
      wfFaces faces = true → countFaces faces = 0 →
      processPart env i name part tr =
        (tr ++ [Event.sketchAdded i "xYConstructionPlane",
                Event.message (noCirclesMsg name)], .ok ())) ∧
    (∀ (env : Env) (i : Nat) (name : String) (part : JsonV) (tr : List Event)
        (tx ty tz : ℚ) (euler : JsonV) (faces : List JsonV) (s : ℚ),
      prePhase part = .ok (tx, ty, tz, euler) →
      sketchPhase part = .ok (faces, s) →
      wfFaces faces = true → 0 < countFaces faces →
      _pick_profile_for_circles (env.host i).profiles = none →
      ∃ Δc, processPart env i name part tr =
          (tr ++ Event.sketchAdded i "xYConstructionPlane" ::
            (Δc ++ [Event.message (noProfileMsg name)]), .ok ()) ∧
        Δc.length = countFaces faces ∧ ∀ e ∈ Δc, isCircleEvent e = true) ∧
    (∀ (env : Env) (i : Nat) (name : String) (part : JsonV)
        (rest : List (String × JsonV)) (tr tr' : List Event),
      processPart env i name part tr = (tr', .ok ()) →
      processParts env i ((name, part) :: rest) tr =
        processParts env (i + 1) rest tr') ∧
    (∀ (env : Env) (data parts : JsonV) (items : List (String × JsonV))
        (tr2 : List Event),
      env.designOk = true → env.dialog = some (.ok data) →
      pyGet data "parts" (.obj []) = .ok parts → pyTruthy parts = true →
      pyItems parts = .ok items →
      processParts env 0 items [] = (tr2, .ok ()) →
      runScript env = (tr2 ++ [.message "Replay complete."], .ok ())) := by
  refine ⟨?_, ?_, ?_, ?_, ?_⟩
  · intro idx tx ty s faces tr hwf
    exact drawFaces_count idx tx ty s faces hwf tr
  · intro env i name part tr tx ty tz euler faces s hpre hsp hwf hc0
    obtain ⟨Δ, hdf, hlen, _⟩ := drawFaces_count i tx ty s faces hwf
      (tr ++ [Event.sketchAdded i "xYConstructionPlane"])
    have hΔ : Δ = [] := List.length_eq_zero.mp (by rw [hlen, hc0])
    subst hΔ
    rw [hc0] at hdf
    simp only [List.append_nil] at hdf
    simp [processPart, PM.bind, liftE, emit, hpre, hsp, hdf]
  · intro env i name part tr tx ty tz euler faces s hpre hsp hwf hcpos hpp
    obtain ⟨Δc, hdf, hlen, hcirc⟩ := drawFaces_count i tx ty s faces hwf
      (tr ++ [Event.sketchAdded i "xYConstructionPlane"])
    have hdec : decide (0 < countFaces faces) = true := by simp [hcpos]
    rw [hdec] at hdf
    refine ⟨Δc, ?_, hlen, hcirc⟩
    simp [processPart, PM.bind, liftE, emit, hpre, hsp, hdf, hpp,
      List.append_assoc]
  · intro env i name part rest tr tr' h
    simp [processParts, PM.bind, h]
  · intro env data parts items tr2 hdes hd hp ht hi hpp
    have ht' : (pyTruthy parts = false) = False := by simp [ht]
    simp [runScript, catchAll, runBody, liftE, PM.bind, hdes, hd, hp, ht', hi,
      hpp, emit]

/-- Witness for C9: a part that is an empty dict draws nothing, reports the
per-part message, finishes normally, and the loop continues with the next
part. -/
theorem C9_witness :
    processPart quietEnv 0 "p1" (.obj []) [] =
      ([] ++ [Event.sketchAdded 0 "xYConstructionPlane",
              Event.message (noCirclesMsg "p1")], .ok ()) ∧
    processParts quietEnv 0 [("p1", .obj []), ("p2", .obj [])] [] =
      processParts quietEnv 1 [("p2", .obj [])]
        ([] ++ [Event.sketchAdded 0 "xYConstructionPlane",
                Event.message (noCirclesMsg "p1")]) := by
  have h1 := C9_per_part_isolation.2.1 quietEnv 0 "p1" (.obj []) []
    0 0 0 (.arr [.num 0, .num 0, .num 0]) [] 1 rfl rfl rfl rfl
  exact ⟨h1, C9_per_part_isolation.2.2.2.1 quietEnv 0 "p1" (.obj [])
    [("p2", .obj [])] [] _ h1⟩

end ReplayCADmium
